import Mathlib

/-!
Shallow embedding of the trading-execution core of the Trading-bot
repository (`src/trading/engine.rs` and its collaborators), together with
theorems checking the specification's claims against it.

`rust_decimal::Decimal` values are modelled as exact rationals (`ℚ`);
timestamps (`chrono::Utc::now`) as abstract ticks (`ℕ`) supplied by the
environment; UUIDs as `ℕ` identifiers supplied fresh by the environment.
-/

namespace TradingBot

/-- Modelled from the spec: the `crate::models` module is not under `src/`;
order side is `{Buy, Sell}` (spec §3, and pattern matches in `engine.rs`). -/
inductive OrderSide
| Buy
| Sell
deriving DecidableEq, Repr

/-- Modelled from the spec: position side is `{Long, Short, Flat}` (spec §3,
and `crate::models::PositionSide` uses in `engine.rs`). -/
inductive PositionSide
| Long
| Short
| Flat
deriving DecidableEq, Repr

/-- Modelled from the spec: order status (spec §3). -/
inductive OrderStatus
| New
| PartiallyFilled
| Filled
| Canceled
| Rejected
deriving DecidableEq, Repr

/-- Modelled from the spec: order type `{Market, Limit, …}` (spec §3). -/
inductive OrderType
| Market
| Limit
| StopLoss
| TakeProfit
deriving DecidableEq, Repr

/-- Modelled from the spec: time-in-force; `engine.rs` only ever uses
`GoodTillCancel`. -/
inductive TimeInForce
| GoodTillCancel
| ImmediateOrCancel
| FillOrKill
deriving DecidableEq, Repr

/-- Modelled from the spec: the `Order` record (spec §3; field uses in
`engine.rs` lines 123-139). UUIDs are modelled as `ℕ`. -/
structure Order where
  id : ℕ
  client_order_id : ℕ
  symbol : String
  side : OrderSide
  order_type : OrderType
  quantity : ℚ
  price : Option ℚ
  status : OrderStatus
  filled_quantity : ℚ
  average_price : Option ℚ
  timestamp : ℕ
  created_at : ℕ
  updated_at : ℕ
  time_in_force : TimeInForce
  strategy_id : Option String
deriving DecidableEq, Repr

/-- Modelled from the spec: the `Trade` record (spec §3; field uses in
`engine.rs` lines 188-200). -/
structure Trade where
  id : ℕ
  order_id : ℕ
  exchange_trade_id : ℕ
  symbol : String
  side : OrderSide
  quantity : ℚ
  price : ℚ
  fee : ℚ
  fee_currency : String
  timestamp : ℕ
  strategy_id : Option String
deriving DecidableEq, Repr

/-- Modelled from the spec: the `Position` record (spec §3; field uses in
`engine.rs` lines 217-227). -/
structure Position where
  symbol : String
  side : PositionSide
  quantity : ℚ
  average_price : ℚ
  unrealized_pnl : ℚ
  realized_pnl : ℚ
  updated_at : ℕ
deriving DecidableEq, Repr

/-- Observable side effects of the engine on its collaborators
(DiscordNotifier / DataManager / spawned tasks), recorded in order. -/
inductive Event
| notifiedOrder (o : Order)
| notifiedTrade (t : Trade)
| notifiedPosition (p : Position)
| notifiedSystem (title : String)
| savedTrade (t : Trade)
| cancelled (id : ℕ)
| loadedPositions
| monitorSpawned
deriving DecidableEq, Repr

/-- The engine's shared mutable state: `positions`, `active_orders`,
`is_running` (`TradingEngine` fields, `engine.rs` lines 25-27). The two
hash maps are modelled as association lists with unique keys maintained by
`insertPos` / `insertOrd`. -/
structure EngineState where
  positions : List (String × Position)
  active_orders : List (ℕ × Order)
  is_running : Bool
deriving DecidableEq, Repr

/-- The engine's environment for a run: the external collaborators
(PriceSource, config, whether persistence and notification calls succeed)
plus the clock and fresh identifiers. -/
structure Env where
  latest_price : String → Option ℚ
  live_trading : Bool
  max_position_size : ℚ
  save_ok : Bool
  notify_ok : Bool
  now : ℕ
  fresh_order_id : ℕ
  fresh_client_order_id : ℕ
  fresh_trade_id : ℕ
  fresh_exchange_trade_id : ℕ

/-- Result of one engine operation: the state after the call (mutations
made before a failure persist, as in the Rust code), the side effects that
succeeded, and the returned value or error. -/
structure StepResult (α : Type) where
  state : EngineState
  events : List Event
  result : Except String α
deriving Repr

/-- Insert-or-replace into the position map (`HashMap::entry` semantics). -/
def insertPos (m : List (String × Position)) (k : String) (v : Position) :
    List (String × Position) :=
  (k, v) :: m.filter (fun p => p.1 ≠ k)

/-- Insert-or-replace into the active-order map (`HashMap::insert`). -/
def insertOrd (m : List (ℕ × Order)) (k : ℕ) (v : Order) :
    List (ℕ × Order) :=
  (k, v) :: m.filter (fun p => p.1 ≠ k)

/-- The hardcoded fallback price `Decimal::from(50000)` used when the
price source has no price (`engine.rs` lines 177 and 292). -/
def defaultPrice : ℚ := 50000

/-- The paper-trading fee rate `0.001` (`engine.rs` line 196). -/
def feeRate : ℚ := 1 / 1000

/-- The zeroed position created lazily on the first trade for a symbol
(`or_insert_with` closure, `engine.rs` lines 217-227). -/
def newPosition (symbol : String) (now : ℕ) : Position :=
  { symbol := symbol
    side := PositionSide.Flat
    quantity := 0
    average_price := 0
    unrealized_pnl := 0
    realized_pnl := 0
    updated_at := now }

/-- The per-position core of `TradingEngine::update_position`
(`engine.rs` lines 230-273): the `match trade.side` block applied to one
position, followed by the `updated_at` refresh. -/
def applyTradeToPosition (position : Position) (trade : Trade) (now : ℕ) :
    Position :=
  let position :=
    match trade.side with
    | OrderSide.Buy =>
      if position.side = PositionSide.Short then
        let close_quantity := min position.quantity trade.quantity
        let pnl := (position.average_price - trade.price) * close_quantity
        let position := { position with
          realized_pnl := position.realized_pnl + pnl
          quantity := position.quantity - close_quantity }
        if position.quantity = 0 then
          { position with side := PositionSide.Flat, average_price := 0 }
        else
          position
      else
        let total_value :=
          position.average_price * position.quantity + trade.price * trade.quantity
        let quantity := position.quantity + trade.quantity
        { position with
          quantity := quantity
          average_price := total_value / quantity
          side := PositionSide.Long }
    | OrderSide.Sell =>
      if position.side = PositionSide.Long then
        let close_quantity := min position.quantity trade.quantity
        let pnl := (trade.price - position.average_price) * close_quantity
        let position := { position with
          realized_pnl := position.realized_pnl + pnl
          quantity := position.quantity - close_quantity }
        if position.quantity = 0 then
          { position with side := PositionSide.Flat, average_price := 0 }
        else
          position
      else
        let total_value :=
          position.average_price * position.quantity + trade.price * trade.quantity
        let quantity := position.quantity + trade.quantity
        { position with
          quantity := quantity
          average_price := total_value / quantity
          side := PositionSide.Short }
  { position with updated_at := now }

/-- `TradingEngine::update_position` (`engine.rs` lines 215-281): applies
the trade to the symbol's position in the map, then sends a position
notification whose failure propagates (`?` on line 278) after the map has
already been mutated. -/
def update_position (env : Env) (st : EngineState) (trade : Trade) :
    StepResult Unit :=
  let p0 := (st.positions.lookup trade.symbol).getD (newPosition trade.symbol env.now)
  let p1 := applyTradeToPosition p0 trade env.now
  let st1 := { st with positions := insertPos st.positions trade.symbol p1 }
  if env.notify_ok then
    ⟨st1, [Event.notifiedPosition p1], Except.ok ()⟩
  else
    ⟨st1, [], Except.error "position notification failed"⟩

/-- The filled order produced by the paper simulator
(`engine.rs` lines 180-183). -/
def paperFill (env : Env) (order : Order) : Order :=
  { order with
    status := OrderStatus.Filled
    filled_quantity := order.quantity
    average_price := some ((env.latest_price order.symbol).getD defaultPrice)
    updated_at := env.now }

/-- The trade record constructed from a paper fill
(`engine.rs` lines 188-200). -/
def tradeFromFill (env : Env) (order : Order) (current_price : ℚ) : Trade :=
  { id := env.fresh_trade_id
    order_id := order.id
    exchange_trade_id := env.fresh_exchange_trade_id
    symbol := order.symbol
    side := order.side
    quantity := order.quantity
    price := current_price
    fee := current_price * order.quantity * feeRate
    fee_currency := "USDT"
    timestamp := env.now
    strategy_id := order.strategy_id }

/-- `TradingEngine::simulate_order_execution` (`engine.rs` lines 172-212):
fill at the current price (fallback 50000), update the position, save the
trade, notify; each fallible step uses `?`, so a failure after the
position update propagates with the update already in place. -/
def simulate_order_execution (env : Env) (st : EngineState) (order : Order) :
    StepResult Order :=
  let current_price := (env.latest_price order.symbol).getD defaultPrice
  let executed_order := paperFill env order
  let trade := tradeFromFill env order current_price
  let r1 := update_position env st trade
  match r1.result with
  | Except.error e => ⟨r1.state, r1.events, Except.error e⟩
  | Except.ok _ =>
    if env.save_ok then
      if env.notify_ok then
        ⟨r1.state, r1.events ++ [Event.savedTrade trade, Event.notifiedTrade trade],
          Except.ok executed_order⟩
      else
        ⟨r1.state, r1.events ++ [Event.savedTrade trade],
          Except.error "trade notification failed"⟩
    else
      ⟨r1.state, r1.events, Except.error "save trade failed"⟩

/-- `BinanceApi::submit_order` (`binance.rs` lines 32-44): the stubbed live
path returns the order marked Filled with `average_price = order.price`,
with no other side effect. -/
def binance_submit_order (env : Env) (order : Order) : Except String Order :=
  Except.ok { order with
    status := OrderStatus.Filled
    filled_quantity := order.quantity
    average_price := order.price
    updated_at := env.now }

/-- `TradingEngine::submit_order` (`engine.rs` lines 158-169): dispatch on
the `live_trading` configuration flag. -/
def submit_order (env : Env) (st : EngineState) (order : Order) :
    StepResult Order :=
  if env.live_trading then
    match binance_submit_order env order with
    | Except.ok o => ⟨st, [], Except.ok o⟩
    | Except.error e => ⟨st, [], Except.error e⟩
  else
    simulate_order_execution env st order

/-- `TradingEngine::check_risk_limits` (`engine.rs` lines 284-304): fetch
the price (fallback 50000), reject when `price * quantity` exceeds
`max_position_size`; the `_side` argument is ignored by the code. -/
def check_risk_limits (env : Env) (symbol : String) (_side : OrderSide)
    (quantity : ℚ) : Except String Unit :=
  let current_price := (env.latest_price symbol).getD defaultPrice
  let position_value := current_price * quantity
  if position_value > env.max_position_size then
    Except.error "order exceeds max position size"
  else
    Except.ok ()

/-- The fresh `Order` built by `execute_trade` (`engine.rs` lines 123-139). -/
def newOrder (env : Env) (symbol : String) (side : OrderSide) (quantity : ℚ)
    (order_type : OrderType) (price : Option ℚ) (strategy_id : Option String) :
    Order :=
  { id := env.fresh_order_id
    client_order_id := env.fresh_client_order_id
    symbol := symbol
    side := side
    order_type := order_type
    quantity := quantity
    price := price
    status := OrderStatus.New
    filled_quantity := 0
    average_price := none
    timestamp := env.now
    created_at := env.now
    updated_at := env.now
    time_in_force := TimeInForce.GoodTillCancel
    strategy_id := strategy_id }

/-- `TradingEngine::execute_trade` (`engine.rs` lines 108-155): risk check,
build the order, submit, track it in `active_orders`, send the order
notification (whose failure propagates via `?` on line 151). -/
def execute_trade (env : Env) (st : EngineState) (symbol : String)
    (side : OrderSide) (quantity : ℚ) (order_type : OrderType)
    (price : Option ℚ) (strategy_id : Option String) : StepResult Order :=
  match check_risk_limits env symbol side quantity with
  | Except.error e => ⟨st, [], Except.error e⟩
  | Except.ok _ =>
    let order := newOrder env symbol side quantity order_type price strategy_id
    let r1 := submit_order env st order
    match r1.result with
    | Except.error e => ⟨r1.state, r1.events, Except.error e⟩
    | Except.ok submitted =>
      let st2 := { r1.state with
        active_orders := insertOrd r1.state.active_orders submitted.id submitted }
      if env.notify_ok then
        ⟨st2, r1.events ++ [Event.notifiedOrder submitted], Except.ok submitted⟩
      else
        ⟨st2, r1.events, Except.error "order notification failed"⟩

/-- `TradingEngine::start` (`engine.rs` lines 51-82): guard on the running
flag, set it, reload positions (a no-op in the code), spawn the monitor,
send the start notification (failure propagates via `?`). -/
def start (env : Env) (st : EngineState) : StepResult Unit :=
  if st.is_running then
    ⟨st, [], Except.error "engine already running"⟩
  else
    let st1 := { st with is_running := true }
    let evs := [Event.loadedPositions, Event.monitorSpawned]
    if env.notify_ok then
      ⟨st1, evs ++ [Event.notifiedSystem "engine started"], Except.ok ()⟩
    else
      ⟨st1, evs, Except.error "system notification failed"⟩

/-- `TradingEngine::cancel_order` (`engine.rs` lines 378-390): remove the
order from the active map (the exchange-side cancel is a TODO). -/
def cancel_order (st : EngineState) (id : ℕ) : EngineState × List Event :=
  ({ st with active_orders := st.active_orders.filter (fun p => p.1 ≠ id) },
    [Event.cancelled id])

/-- `TradingEngine::cancel_all_orders` (`engine.rs` lines 360-375):
snapshot the active orders, cancel each in turn. -/
def cancel_all_orders (st : EngineState) : EngineState × List Event :=
  st.active_orders.foldl
    (fun acc p =>
      let r := cancel_order acc.1 p.1
      (r.1, acc.2 ++ r.2))
    (st, [])

/-- `TradingEngine::stop` (`engine.rs` lines 85-105): unconditionally clear
the running flag, cancel all active orders, send the stop notification
(failure propagates via `?`). -/
def stop (env : Env) (st : EngineState) : StepResult Unit :=
  let st1 := { st with is_running := false }
  let r := cancel_all_orders st1
  if env.notify_ok then
    ⟨r.1, r.2 ++ [Event.notifiedSystem "engine stopped"], Except.ok ()⟩
  else
    ⟨r.1, r.2, Except.error "system notification failed"⟩

/-- The spec's Position invariant (§3, §8): `side = Flat ↔ quantity = 0`,
`quantity ≥ 0`, and `average_price = 0` whenever the position is flat. -/
def positionInvariant (p : Position) : Prop :=
  (p.side = PositionSide.Flat ↔ p.quantity = 0) ∧
  0 ≤ p.quantity ∧
  (p.side = PositionSide.Flat → p.average_price = 0)

instance (p : Position) : Decidable (positionInvariant p) := by
  unfold positionInvariant
  infer_instance

/-- A concrete trade, for witnesses. -/
def sampleTrade (side : OrderSide) (quantity price : ℚ) : Trade :=
  { id := 0
    order_id := 0
    exchange_trade_id := 0
    symbol := "BTCUSDT"
    side := side
    quantity := quantity
    price := price
    fee := 0
    fee_currency := "USDT"
    timestamp := 0
    strategy_id := none }

/-- A concrete position, for witnesses. -/
def samplePosition (side : PositionSide) (quantity average_price : ℚ) :
    Position :=
  { symbol := "BTCUSDT"
    side := side
    quantity := quantity
    average_price := average_price
    unrealized_pnl := 0
    realized_pnl := 0
    updated_at := 0 }

/-- One step of `update_position` preserves the Position invariant. -/
theorem applyTrade_invariant (p : Position) (t : Trade) (now : ℕ)
    (hp : positionInvariant p) (ht : 0 < t.quantity) :
    positionInvariant (applyTradeToPosition p t now) := by
  obtain ⟨hiff, hq, havg⟩ := hp
  have hmin := min_le_left p.quantity t.quantity
  have hpos : 0 < p.quantity + t.quantity := by linarith
  unfold applyTradeToPosition positionInvariant
  cases t.side <;> dsimp only <;> split_ifs with h1 h2 <;>
    refine ⟨?_, ?_, ?_⟩ <;> simp_all <;>
    first
      | exact ne_of_gt hpos
      | linarith

/-- Folding a list of positive-quantity trades preserves the invariant. -/
theorem foldl_applyTrade_invariant (now : ℕ) (trades : List Trade) :
    ∀ p, positionInvariant p → (∀ t ∈ trades, 0 < t.quantity) →
    positionInvariant
      (trades.foldl (fun p t => applyTradeToPosition p t now) p) := by
  induction trades with
  | nil => intro p hp _; simpa using hp
  | cons t ts ih =>
    intro p hp h
    simp only [List.foldl_cons]
    exact ih _ (applyTrade_invariant p t now hp (h t (List.mem_cons_self t ts)))
      (fun x hx => h x (List.mem_cons_of_mem t hx))

/-- Claim C1: every Position reachable from the lazily-created zero position
by a finite sequence of trades with positive quantity and price satisfies
`side = Flat ↔ quantity = 0`, `quantity ≥ 0`, and `average_price = 0`
whenever the side is Flat. -/
theorem reachable_position_invariant (symbol : String) (t0 now : ℕ)
    (trades : List Trade)
    (h : ∀ t ∈ trades, 0 < t.quantity ∧ 0 < t.price) :
    positionInvariant
      (trades.foldl (fun p t => applyTradeToPosition p t now)
        (newPosition symbol t0)) := by
  refine foldl_applyTrade_invariant now trades (newPosition symbol t0)
    ⟨by simp [newPosition], by simp [newPosition], by simp [newPosition]⟩
    (fun t ht => (h t ht).1)

/-- Witness for C1 at a concrete two-trade sequence. -/
theorem reachable_position_invariant_witness :
    positionInvariant
      ([sampleTrade OrderSide.Buy 1 100, sampleTrade OrderSide.Sell 2 120].foldl
        (fun p t => applyTradeToPosition p t 3) (newPosition "BTCUSDT" 0)) :=
  reachable_position_invariant "BTCUSDT" 0 3
    [sampleTrade OrderSide.Buy 1 100, sampleTrade OrderSide.Sell 2 120]
    (by decide)

/-- Claim C2: an opposing trade closes `min(qty, trade.qty)`, credits the
corresponding realized P&L, flattens the position (zero average price) when
the quantity reaches 0, keeps side and average price otherwise, and drops
the excess without opening a position in the opposite direction. -/
theorem close_position_correct (p : Position) (t : Trade) (now : ℕ)
    (hq : 0 < t.quantity)
    (hopp : (p.side = PositionSide.Long ∧ t.side = OrderSide.Sell) ∨
            (p.side = PositionSide.Short ∧ t.side = OrderSide.Buy)) :
    (applyTradeToPosition p t now).quantity
      = p.quantity - min p.quantity t.quantity ∧
    (p.side = PositionSide.Long →
      (applyTradeToPosition p t now).realized_pnl =
        p.realized_pnl + (t.price - p.average_price) * min p.quantity t.quantity) ∧
    (p.side = PositionSide.Short →
      (applyTradeToPosition p t now).realized_pnl =
        p.realized_pnl + (p.average_price - t.price) * min p.quantity t.quantity) ∧
    (p.quantity - min p.quantity t.quantity = 0 →
      (applyTradeToPosition p t now).side = PositionSide.Flat ∧
      (applyTradeToPosition p t now).average_price = 0) ∧
    (p.quantity - min p.quantity t.quantity ≠ 0 →
      (applyTradeToPosition p t now).side = p.side ∧
      (applyTradeToPosition p t now).average_price = p.average_price) := by
  unfold applyTradeToPosition
  rcases hopp with ⟨hs, hts⟩ | ⟨hs, hts⟩ <;> rw [hts] <;> dsimp only
  · rw [if_pos hs]
    by_cases hz : p.quantity - min p.quantity t.quantity = 0 <;>
      simp_all [hz]
  · rw [if_pos hs]
    by_cases hz : p.quantity - min p.quantity t.quantity = 0 <;>
      simp_all [hz]

/-- Witness for C2: selling 1 at 150 against a Long position of 2 at 100. -/
theorem close_position_correct_witness :
    (applyTradeToPosition (samplePosition PositionSide.Long 2 100)
        (sampleTrade OrderSide.Sell 1 150) 5).quantity
      = (samplePosition PositionSide.Long 2 100).quantity
          - min (samplePosition PositionSide.Long 2 100).quantity
              (sampleTrade OrderSide.Sell 1 150).quantity ∧
    ((samplePosition PositionSide.Long 2 100).side = PositionSide.Long →
      (applyTradeToPosition (samplePosition PositionSide.Long 2 100)
          (sampleTrade OrderSide.Sell 1 150) 5).realized_pnl =
        (samplePosition PositionSide.Long 2 100).realized_pnl +
          ((sampleTrade OrderSide.Sell 1 150).price
              - (samplePosition PositionSide.Long 2 100).average_price)
            * min (samplePosition PositionSide.Long 2 100).quantity
                (sampleTrade OrderSide.Sell 1 150).quantity) ∧
    ((samplePosition PositionSide.Long 2 100).side = PositionSide.Short →
      (applyTradeToPosition (samplePosition PositionSide.Long 2 100)
          (sampleTrade OrderSide.Sell 1 150) 5).realized_pnl =
        (samplePosition PositionSide.Long 2 100).realized_pnl +
          ((samplePosition PositionSide.Long 2 100).average_price
              - (sampleTrade OrderSide.Sell 1 150).price)
            * min (samplePosition PositionSide.Long 2 100).quantity
                (sampleTrade OrderSide.Sell 1 150).quantity) ∧
    ((samplePosition PositionSide.Long 2 100).quantity
        - min (samplePosition PositionSide.Long 2 100).quantity
            (sampleTrade OrderSide.Sell 1 150).quantity = 0 →
      (applyTradeToPosition (samplePosition PositionSide.Long 2 100)
          (sampleTrade OrderSide.Sell 1 150) 5).side = PositionSide.Flat ∧
      (applyTradeToPosition (samplePosition PositionSide.Long 2 100)
          (sampleTrade OrderSide.Sell 1 150) 5).average_price = 0) ∧
    ((samplePosition PositionSide.Long 2 100).quantity
        - min (samplePosition PositionSide.Long 2 100).quantity
            (sampleTrade OrderSide.Sell 1 150).quantity ≠ 0 →
      (applyTradeToPosition (samplePosition PositionSide.Long 2 100)
          (sampleTrade OrderSide.Sell 1 150) 5).side
        = (samplePosition PositionSide.Long 2 100).side ∧
      (applyTradeToPosition (samplePosition PositionSide.Long 2 100)
          (sampleTrade OrderSide.Sell 1 150) 5).average_price
        = (samplePosition PositionSide.Long 2 100).average_price) :=
  close_position_correct (samplePosition PositionSide.Long 2 100)
    (sampleTrade OrderSide.Sell 1 150) 5 (by decide) (Or.inl (by decide))

/-- Claim C3: a same-direction (or position-opening) trade performs the
weighted-average update, adds the trade quantity, sets the side to the
trade's direction, and leaves realized P&L unchanged; in particular buying
1 at 100 then 1 at 200 from Flat yields Long, quantity 2, average 150. -/
theorem add_position_correct (p : Position) (t : Trade) (now : ℕ)
    (hq : 0 < t.quantity)
    (hsame : p.side = PositionSide.Flat ∨
             (p.side = PositionSide.Long ∧ t.side = OrderSide.Buy) ∨
             (p.side = PositionSide.Short ∧ t.side = OrderSide.Sell)) :
    ((applyTradeToPosition p t now).average_price =
        (p.average_price * p.quantity + t.price * t.quantity)
          / (p.quantity + t.quantity) ∧
      (applyTradeToPosition p t now).quantity = p.quantity + t.quantity ∧
      (applyTradeToPosition p t now).side =
        (match t.side with
         | OrderSide.Buy => PositionSide.Long
         | OrderSide.Sell => PositionSide.Short) ∧
      (applyTradeToPosition p t now).realized_pnl = p.realized_pnl) ∧
    ((applyTradeToPosition
        (applyTradeToPosition (newPosition "BTCUSDT" 0)
          (sampleTrade OrderSide.Buy 1 100) 1)
        (sampleTrade OrderSide.Buy 1 200) 2).side = PositionSide.Long ∧
      (applyTradeToPosition
        (applyTradeToPosition (newPosition "BTCUSDT" 0)
          (sampleTrade OrderSide.Buy 1 100) 1)
        (sampleTrade OrderSide.Buy 1 200) 2).quantity = 2 ∧
      (applyTradeToPosition
        (applyTradeToPosition (newPosition "BTCUSDT" 0)
          (sampleTrade OrderSide.Buy 1 100) 1)
        (sampleTrade OrderSide.Buy 1 200) 2).average_price = 150) := by
  refine ⟨?_, by simp [applyTradeToPosition, newPosition, sampleTrade]; norm_num⟩
  unfold applyTradeToPosition
  rcases hsame with hs | ⟨hs, hts⟩ | ⟨hs, hts⟩
  · cases hts : t.side <;> dsimp only <;> rw [if_neg (by simp [hs])] <;>
      simp_all [mul_comm]
  · rw [hts] <;> dsimp only <;> rw [if_neg (by simp [hs])] <;>
      simp_all [mul_comm]
  · rw [hts] <;> dsimp only <;> rw [if_neg (by simp [hs])] <;>
      simp_all [mul_comm]

/-- Witness for C3: adding 1 at 200 to a Long position of 1 at 100. -/
theorem add_position_correct_witness :
    ((applyTradeToPosition (samplePosition PositionSide.Long 1 100)
        (sampleTrade OrderSide.Buy 1 200) 7).average_price =
        ((samplePosition PositionSide.Long 1 100).average_price
            * (samplePosition PositionSide.Long 1 100).quantity
          + (sampleTrade OrderSide.Buy 1 200).price
            * (sampleTrade OrderSide.Buy 1 200).quantity)
          / ((samplePosition PositionSide.Long 1 100).quantity
            + (sampleTrade OrderSide.Buy 1 200).quantity) ∧
      (applyTradeToPosition (samplePosition PositionSide.Long 1 100)
        (sampleTrade OrderSide.Buy 1 200) 7).quantity =
        (samplePosition PositionSide.Long 1 100).quantity
          + (sampleTrade OrderSide.Buy 1 200).quantity ∧
      (applyTradeToPosition (samplePosition PositionSide.Long 1 100)
        (sampleTrade OrderSide.Buy 1 200) 7).side =
        (match (sampleTrade OrderSide.Buy 1 200).side with
         | OrderSide.Buy => PositionSide.Long
         | OrderSide.Sell => PositionSide.Short) ∧
      (applyTradeToPosition (samplePosition PositionSide.Long 1 100)
        (sampleTrade OrderSide.Buy 1 200) 7).realized_pnl =
        (samplePosition PositionSide.Long 1 100).realized_pnl) ∧
    ((applyTradeToPosition
        (applyTradeToPosition (newPosition "BTCUSDT" 0)
          (sampleTrade OrderSide.Buy 1 100) 1)
        (sampleTrade OrderSide.Buy 1 200) 2).side = PositionSide.Long ∧
      (applyTradeToPosition
        (applyTradeToPosition (newPosition "BTCUSDT" 0)
          (sampleTrade OrderSide.Buy 1 100) 1)
        (sampleTrade OrderSide.Buy 1 200) 2).quantity = 2 ∧
      (applyTradeToPosition
        (applyTradeToPosition (newPosition "BTCUSDT" 0)
          (sampleTrade OrderSide.Buy 1 100) 1)
        (sampleTrade OrderSide.Buy 1 200) 2).average_price = 150) :=
  add_position_correct (samplePosition PositionSide.Long 1 100)
    (sampleTrade OrderSide.Buy 1 200) 7 (by decide)
    (Or.inr (Or.inl (by decide)))

/-- A concrete paper-mode environment with working collaborators. -/
def sampleEnv : Env :=
  { latest_price := fun _ => some 123
    live_trading := false
    max_position_size := 1000000
    save_ok := true
    notify_ok := true
    now := 9
    fresh_order_id := 1
    fresh_client_order_id := 2
    fresh_trade_id := 3
    fresh_exchange_trade_id := 4 }

/-- The same environment in live-trading mode. -/
def sampleEnvLive : Env := { sampleEnv with live_trading := true }

/-- The same environment with trade persistence failing. -/
def sampleEnvSaveFail : Env := { sampleEnv with save_ok := false }

/-- A concrete order request, for witnesses. -/
def sampleOrder : Order :=
  newOrder sampleEnv "BTCUSDT" OrderSide.Buy 1 OrderType.Market none none

/-- The engine state right after construction (`TradingEngine::new`). -/
def emptyState : EngineState := ⟨[], [], false⟩

/-- A running engine state, for witnesses. -/
def runningState : EngineState := ⟨[], [], true⟩

/-- A running engine state with one tracked active order, for witnesses. -/
def oneOrderState : EngineState := ⟨[], [(1, sampleOrder)], true⟩

/-- Claim C6: the risk check rejects with a limit error exactly when
(current price, with the default substituted when the source has none)
times quantity exceeds `max_position_size`, and a risk rejection makes
`execute_trade` return the error with the position map, the order ledger
and the side-effect log untouched. -/
theorem risk_check_gates_execute (env : Env) (st : EngineState)
    (symbol : String) (side : OrderSide) (quantity : ℚ)
    (order_type : OrderType) (price : Option ℚ)
    (strategy_id : Option String) :
    ((∃ e, check_risk_limits env symbol side quantity = Except.error e) ↔
      (env.latest_price symbol).getD defaultPrice * quantity
        > env.max_position_size) ∧
    ((env.latest_price symbol).getD defaultPrice * quantity
        > env.max_position_size →
      execute_trade env st symbol side quantity order_type price strategy_id =
        ⟨st, [], Except.error "order exceeds max position size"⟩) := by
  constructor
  · constructor
    · rintro ⟨e, he⟩
      by_contra hgt
      simp [check_risk_limits, if_neg hgt] at he
    · intro hgt
      exact ⟨"order exceeds max position size",
        by simp [check_risk_limits, if_pos hgt]⟩
  · intro hgt
    simp [execute_trade, check_risk_limits, if_pos hgt]

/-- Claim C7: a successful paper simulation returns the order with status
Filled, the full quantity filled (no partial fills), the current price
(with fallback) as average price, and a refreshed timestamp. -/
theorem paper_fill_correct (env : Env) (st : EngineState) (order o : Order)
    (h : (simulate_order_execution env st order).result = Except.ok o) :
    o = paperFill env order ∧
    o.status = OrderStatus.Filled ∧
    o.filled_quantity = order.quantity ∧
    o.average_price = some ((env.latest_price order.symbol).getD defaultPrice) ∧
    o.updated_at = env.now := by
  unfold simulate_order_execution update_position at h
  by_cases hn : env.notify_ok <;> by_cases hs : env.save_ok <;>
    simp [hn, hs] at h
  subst h
  exact ⟨rfl, rfl, rfl, rfl, rfl⟩

/-- Witness for C7 at a concrete paper execution. -/
theorem paper_fill_correct_witness :
    paperFill sampleEnv sampleOrder = paperFill sampleEnv sampleOrder ∧
    (paperFill sampleEnv sampleOrder).status = OrderStatus.Filled ∧
    (paperFill sampleEnv sampleOrder).filled_quantity = sampleOrder.quantity ∧
    (paperFill sampleEnv sampleOrder).average_price =
      some ((sampleEnv.latest_price sampleOrder.symbol).getD defaultPrice) ∧
    (paperFill sampleEnv sampleOrder).updated_at = sampleEnv.now :=
  paper_fill_correct sampleEnv emptyState sampleOrder
    (paperFill sampleEnv sampleOrder) rfl

/-- Claim C8: `start()` on an already-running engine returns the
already-running error, leaves the state (running flag included) unchanged,
and performs no reload, spawn, or notification side effect. -/
theorem start_already_running (env : Env) (st : EngineState)
    (h : st.is_running = true) :
    start env st = ⟨st, [], Except.error "engine already running"⟩ := by
  simp [start, h]

/-- Witness for C8 on a concrete running engine. -/
theorem start_already_running_witness :
    start sampleEnv runningState =
      ⟨runningState, [], Except.error "engine already running"⟩ :=
  start_already_running sampleEnv runningState rfl

/-- Claim C10: the risk check ignores the order side, so Buy and Sell are
accepted or rejected identically for every configuration and price-source
state. -/
theorem risk_check_side_independent (env : Env) (symbol : String)
    (quantity : ℚ) :
    check_risk_limits env symbol OrderSide.Buy quantity =
      check_risk_limits env symbol OrderSide.Sell quantity := rfl

/-- Folding `cancel_order` over a snapshot covering every tracked key
empties the order map and touches nothing else. -/
theorem cancel_foldl_clears (l : List (ℕ × Order)) :
    ∀ (st : EngineState) (evs : List Event),
    (∀ q ∈ st.active_orders, q.1 ∈ l.map Prod.fst) →
    (l.foldl
        (fun acc p => ((cancel_order acc.1 p.1).1, acc.2 ++ (cancel_order acc.1 p.1).2))
        (st, evs)).1.active_orders = [] ∧
    (l.foldl
        (fun acc p => ((cancel_order acc.1 p.1).1, acc.2 ++ (cancel_order acc.1 p.1).2))
        (st, evs)).1.positions = st.positions ∧
    (l.foldl
        (fun acc p => ((cancel_order acc.1 p.1).1, acc.2 ++ (cancel_order acc.1 p.1).2))
        (st, evs)).1.is_running = st.is_running := by
  induction l with
  | nil =>
    intro st evs h
    refine ⟨?_, rfl, rfl⟩
    simpa [List.eq_nil_iff_forall_not_mem] using h
  | cons a l ih =>
    intro st evs h
    simp only [List.foldl_cons]
    refine (ih _ _ ?_).imp id (fun hh => hh.imp id id)
    intro q hq
    simp only [cancel_order, List.mem_filter, decide_eq_true_eq] at hq
    rcases List.mem_map.mp (h q hq.1) with hmem
    have : q.1 ∈ (a :: l).map Prod.fst := h q hq.1
    simp only [List.map_cons, List.mem_cons] at this
    rcases this with h1 | h1
    · exact absurd h1 hq.2
    · exact h1

/-- `stop` always leaves the active-order ledger empty. -/
theorem stop_clears_orders (env : Env) (st : EngineState) :
    (stop env st).state.active_orders = [] := by
  have h := cancel_foldl_clears st.active_orders
    { st with is_running := false } []
    (fun q hq => List.mem_map.mpr ⟨q, hq, rfl⟩)
  unfold stop cancel_all_orders
  split_ifs <;> exact h.1

/-- `stop` on a state with no active orders cancels nothing and succeeds
when the notifier is up. -/
theorem stop_on_empty (env : Env) (s : EngineState)
    (h : env.notify_ok = true) (he : s.active_orders = []) :
    stop env s =
      ⟨{ s with is_running := false },
        [Event.notifiedSystem "engine stopped"], Except.ok ()⟩ := by
  unfold stop cancel_all_orders
  simp [he, h]

/-- Claim C9: a second consecutive `stop()` (the engine is already
stopped) returns success, issues no cancellation for any order (the first
call already cleared the ledger), and only re-sends the stop
notification. -/
theorem stop_idempotent (env : Env) (st : EngineState)
    (h : env.notify_ok = true) :
    (stop env (stop env st).state).result = Except.ok () ∧
    (stop env (stop env st).state).events
      = [Event.notifiedSystem "engine stopped"] ∧
    ∀ i, Event.cancelled i ∉ (stop env (stop env st).state).events := by
  rw [stop_on_empty env (stop env st).state h (stop_clears_orders env st)]
  exact ⟨rfl, rfl, by simp⟩

/-- Witness for C9: stopping twice from a running one-order state. -/
theorem stop_idempotent_witness :
    (stop sampleEnv (stop sampleEnv oneOrderState).state).result
      = Except.ok () ∧
    (stop sampleEnv (stop sampleEnv oneOrderState).state).events
      = [Event.notifiedSystem "engine stopped"] ∧
    ∀ i, Event.cancelled i ∉
      (stop sampleEnv (stop sampleEnv oneOrderState).state).events :=
  stop_idempotent sampleEnv oneOrderState rfl

/-- Counterexample to claim C4: in live mode the submitted order comes back
Filled, yet no Trade is applied to the position book, saved, or notified —
the fill side effects happen in paper mode only. -/
theorem execute_trade_live_counterexample :
    (execute_trade sampleEnvLive emptyState "BTCUSDT" OrderSide.Buy 1
        OrderType.Market (some 100) none).result.map Order.status
      = Except.ok OrderStatus.Filled ∧
    (execute_trade sampleEnvLive emptyState "BTCUSDT" OrderSide.Buy 1
        OrderType.Market (some 100) none).state.positions = [] ∧
    ∀ t : Trade,
      Event.savedTrade t ∉ (execute_trade sampleEnvLive emptyState "BTCUSDT"
        OrderSide.Buy 1 OrderType.Market (some 100) none).events ∧
      Event.notifiedTrade t ∉ (execute_trade sampleEnvLive emptyState "BTCUSDT"
        OrderSide.Buy 1 OrderType.Market (some 100) none).events := by
  have hrisk : check_risk_limits sampleEnvLive "BTCUSDT" OrderSide.Buy 1
      = Except.ok () := by
    norm_num [check_risk_limits, sampleEnvLive, sampleEnv, defaultPrice]
  have hl : sampleEnvLive.live_trading = true := rfl
  have hn : sampleEnvLive.notify_ok = true := rfl
  simp only [execute_trade, hrisk]
  simp [submit_order, binance_submit_order, hl, hn, emptyState, Except.map]

/-- Claim C4 amended: a successful `execute_trade` tracks the submitted
order in the ledger and notifies it; in paper mode the fill additionally
applies a Trade to the position book, saves it, and notifies it, while in
live mode the fill triggers none of those even though the order returns
Filled; the submitted order is returned. -/
theorem execute_trade_success_effects (env : Env) (st : EngineState)
    (symbol : String) (side : OrderSide) (quantity : ℚ)
    (order_type : OrderType) (price : Option ℚ)
    (strategy_id : Option String)
    (hrisk : check_risk_limits env symbol side quantity = Except.ok ())
    (hn : env.notify_ok = true) (hs : env.save_ok = true) :
    (env.live_trading = false →
      execute_trade env st symbol side quantity order_type price strategy_id =
        (let order := newOrder env symbol side quantity order_type price strategy_id
         let trade := tradeFromFill env order
           ((env.latest_price symbol).getD defaultPrice)
         let p1 := applyTradeToPosition
           ((st.positions.lookup symbol).getD (newPosition symbol env.now))
           trade env.now
         let filled := paperFill env order
         ⟨⟨insertPos st.positions symbol p1,
           insertOrd st.active_orders filled.id filled, st.is_running⟩,
          [Event.notifiedPosition p1, Event.savedTrade trade,
            Event.notifiedTrade trade, Event.notifiedOrder filled],
          Except.ok filled⟩)) ∧
    (env.live_trading = true →
      execute_trade env st symbol side quantity order_type price strategy_id =
        (let order := newOrder env symbol side quantity order_type price strategy_id
         let filled : Order := { order with
           status := OrderStatus.Filled
           filled_quantity := order.quantity
           average_price := order.price
           updated_at := env.now }
         ⟨⟨st.positions, insertOrd st.active_orders filled.id filled,
           st.is_running⟩,
          [Event.notifiedOrder filled], Except.ok filled⟩)) := by
  constructor <;> intro hlive <;>
    simp [execute_trade, submit_order, simulate_order_execution,
      update_position, binance_submit_order, paperFill, tradeFromFill,
      newOrder, hrisk, hn, hs, hlive]

/-- Witness for the amended C4 at a concrete paper-mode execution. -/
theorem execute_trade_success_effects_witness :
    (sampleEnv.live_trading = false →
      execute_trade sampleEnv emptyState "BTCUSDT" OrderSide.Buy 1
          OrderType.Market none none =
        (let order := newOrder sampleEnv "BTCUSDT" OrderSide.Buy 1
           OrderType.Market none none
         let trade := tradeFromFill sampleEnv order
           ((sampleEnv.latest_price "BTCUSDT").getD defaultPrice)
         let p1 := applyTradeToPosition
           ((emptyState.positions.lookup "BTCUSDT").getD
             (newPosition "BTCUSDT" sampleEnv.now))
           trade sampleEnv.now
         let filled := paperFill sampleEnv order
         ⟨⟨insertPos emptyState.positions "BTCUSDT" p1,
           insertOrd emptyState.active_orders filled.id filled,
           emptyState.is_running⟩,
          [Event.notifiedPosition p1, Event.savedTrade trade,
            Event.notifiedTrade trade, Event.notifiedOrder filled],
          Except.ok filled⟩)) ∧
    (sampleEnv.live_trading = true →
      execute_trade sampleEnv emptyState "BTCUSDT" OrderSide.Buy 1
          OrderType.Market none none =
        (let order := newOrder sampleEnv "BTCUSDT" OrderSide.Buy 1
           OrderType.Market none none
         let filled : Order := { order with
           status := OrderStatus.Filled
           filled_quantity := order.quantity
           average_price := order.price
           updated_at := sampleEnv.now }
         ⟨⟨emptyState.positions,
           insertOrd emptyState.active_orders filled.id filled,
           emptyState.is_running⟩,
          [Event.notifiedOrder filled], Except.ok filled⟩)) :=
  execute_trade_success_effects sampleEnv emptyState "BTCUSDT"
    OrderSide.Buy 1 OrderType.Market none none
    (by norm_num [check_risk_limits, sampleEnv, defaultPrice]) rfl rfl

/-- Counterexample to claim C5: with the trade store failing, the position
update has already taken effect, yet `execute_trade` propagates the
persistence error instead of returning the submitted order. -/
theorem post_fill_failure_counterexample :
    (execute_trade sampleEnvSaveFail emptyState "BTCUSDT" OrderSide.Buy 1
        OrderType.Market none none).result = Except.error "save trade failed" ∧
    ((execute_trade sampleEnvSaveFail emptyState "BTCUSDT" OrderSide.Buy 1
        OrderType.Market none none).state.positions.lookup "BTCUSDT").map
      Position.quantity = some 1 := by
  have hrisk : check_risk_limits sampleEnvSaveFail "BTCUSDT" OrderSide.Buy 1
      = Except.ok () := by
    norm_num [check_risk_limits, sampleEnvSaveFail, sampleEnv, defaultPrice]
  have hl : sampleEnvSaveFail.live_trading = false := rfl
  have hn : sampleEnvSaveFail.notify_ok = true := rfl
  have hs : sampleEnvSaveFail.save_ok = false := rfl
  have hp : sampleEnvSaveFail.latest_price "BTCUSDT" = some 123 := rfl
  simp only [execute_trade, hrisk]
  simp only [submit_order, simulate_order_execution, update_position,
    hl, hn, hs, hp]
  simp [emptyState, insertPos, applyTradeToPosition, newPosition,
    tradeFromFill, newOrder, List.lookup] <;> norm_num

/-- Claim C5 amended: once the paper fill has been applied to the position
book, a failure of trade persistence or of a notification is propagated as
an error out of `execute_trade` (the position update is not rolled back),
rather than being logged and swallowed. -/
theorem post_fill_failure_propagates (env : Env) (st : EngineState)
    (symbol : String) (side : OrderSide) (quantity : ℚ)
    (order_type : OrderType) (price : Option ℚ)
    (strategy_id : Option String)
    (hlive : env.live_trading = false)
    (hrisk : check_risk_limits env symbol side quantity = Except.ok ())
    (hfail : env.save_ok = false ∨ env.notify_ok = false) :
    (∃ e, (execute_trade env st symbol side quantity order_type price
        strategy_id).result = Except.error e) ∧
    (execute_trade env st symbol side quantity order_type price
        strategy_id).state.positions
      = insertPos st.positions symbol
          (applyTradeToPosition
            ((st.positions.lookup symbol).getD (newPosition symbol env.now))
            (tradeFromFill env
              (newOrder env symbol side quantity order_type price strategy_id)
              ((env.latest_price symbol).getD defaultPrice))
            env.now) := by
  by_cases hn : env.notify_ok
  · have hs : env.save_ok = false := by
      rcases hfail with h | h
      · exact h
      · exact absurd hn (by simp [h])
    constructor
    · exact ⟨"save trade failed",
        by simp [execute_trade, submit_order, simulate_order_execution,
          update_position, hrisk, hlive, hn, hs]⟩
    · simp [execute_trade, submit_order, simulate_order_execution,
        update_position, tradeFromFill, newOrder, insertPos,
        hrisk, hlive, hn, hs]
  · constructor
    · exact ⟨"position notification failed",
        by simp [execute_trade, submit_order, simulate_order_execution,
          update_position, hrisk, hlive, hn]⟩
    · simp [execute_trade, submit_order, simulate_order_execution,
        update_position, tradeFromFill, newOrder, insertPos,
        hrisk, hlive, hn]

/-- Witness for the amended C5 with a concrete failing trade store. -/
theorem post_fill_failure_propagates_witness :
    (∃ e, (execute_trade sampleEnvSaveFail emptyState "BTCUSDT"
        OrderSide.Buy 1 OrderType.Market none none).result
      = Except.error e) ∧
    (execute_trade sampleEnvSaveFail emptyState "BTCUSDT" OrderSide.Buy 1
        OrderType.Market none none).state.positions
      = insertPos emptyState.positions "BTCUSDT"
          (applyTradeToPosition
            ((emptyState.positions.lookup "BTCUSDT").getD
              (newPosition "BTCUSDT" sampleEnvSaveFail.now))
            (tradeFromFill sampleEnvSaveFail
              (newOrder sampleEnvSaveFail "BTCUSDT" OrderSide.Buy 1
                OrderType.Market none none)
              ((sampleEnvSaveFail.latest_price "BTCUSDT").getD defaultPrice))
            sampleEnvSaveFail.now) :=
  post_fill_failure_propagates sampleEnvSaveFail emptyState "BTCUSDT"
    OrderSide.Buy 1 OrderType.Market none none rfl
    (by norm_num [check_risk_limits, sampleEnvSaveFail, sampleEnv,
      defaultPrice])
    (Or.inl rfl)

end TradingBot
